import Mathlib

/-!
Verification of the validation and derived-data rules of the
ALX travel-listing booking backend (listings, bookings, reviews).

The definitions below are a shallow embedding of the Python source:
* `src/listings/models.py` — `Listing`, `Booking`, `Review` models, their
  check constraints, `Booking.clean`, `Booking.duration_days`,
  `Listing.average_rating`, `Review.Meta.unique_together`;
* `src/alx_travel_app/listings/serializers.py` — the serializer
  validators `validate_rating`, `validate_price_per_night`,
  `validate_total_price`, `BookingSerializer.validate`,
  `get_amenities_list`.

Decimal amounts are modelled as `ℚ`, Python `date` values as a
year/month/day record compared through their proleptic Gregorian day
number, UUID keys as `Nat` tokens, and the relational store as explicit
lists passed to the functions that read it.
-/

namespace AlxTravel

/-- Error taxonomy.  `validationError` embeds
`rest_framework.serializers.ValidationError` /
`django.core.exceptions.ValidationError` with its message;
`integrityError` embeds a storage-level `CheckConstraint` violation
(carrying the constraint name from `Booking.Meta.constraints`);
`conflictError` a storage-level uniqueness violation; `notFoundError` is
the spec's distinct "referenced entity does not exist" kind (the source
never raises it, see `BookingSerializer.validate`). -/
inductive VError where
  | validationError (msg : String)
  | notFoundError
  | conflictError
  | integrityError (constraint : String)
deriving DecidableEq

/-- Python `datetime.date`: a civil year/month/day triple. -/
structure Date where
  year : Int
  month : Int
  day : Int
deriving DecidableEq

/-- Day number of a civil date (days since 1970-01-01, proleptic
Gregorian) — the ordinal through which Python `date` objects subtract
and compare.  Standard `days_from_civil` computation. -/
def Date.toDays (dt : Date) : Int :=
  let y := if dt.month ≤ 2 then dt.year - 1 else dt.year
  let era := (if 0 ≤ y then y else y - 399) / 400
  let yoe := y - era * 400
  let mp := (dt.month + 9) % 12
  let doy := (153 * mp + 2) / 5 + dt.day - 1
  let doe := yoe * 365 + yoe / 4 - yoe / 100 + doy
  era * 146097 + doe - 719468

/-- `Listing` model (`src/listings/models.py`).  Timestamps and the
`description`/`location` free text are omitted: no claim reads them.
`listing_id` models the UUID primary key as an opaque `Nat` token. -/
structure Listing where
  listing_id : Nat
  title : String
  price_per_night : ℚ
  number_of_bedrooms : Nat
  number_of_bathrooms : Nat
  max_guest_count : Nat
  host_id : Nat
  is_available : Bool
  amenities : String
deriving DecidableEq

/-- `Booking` model (`src/listings/models.py`).  `status`,
`special_requests` and timestamps are omitted: no claim reads them. -/
structure Booking where
  listing_id : Nat
  user_id : Nat
  check_in_date : Date
  check_out_date : Date
  number_of_guests : Nat
  total_price : ℚ
deriving DecidableEq

/-- `Review` model (`src/listings/models.py`), keyed by the
(listing, user) pair the `unique_together` constraint governs. -/
structure Review where
  listing_id : Nat
  user_id : Nat
  rating : Nat
  comment : String
deriving DecidableEq

/-- `Listing.objects.get(listing_id=...)`: look a listing up by primary
key in the store. -/
def findListing (store : List Listing) (lid : Nat) : Option Listing :=
  store.find? (fun l => l.listing_id == lid)

/-- An operation returning `Except VError α` succeeds when it yields a
value rather than raising. -/
def succeeds {α : Type} (r : Except VError α) : Prop :=
  ∃ a, r = .ok a

/-! ## Field-level serializer validators -/

/-- `ReviewSerializer.validate_rating`:
`if not (1 <= value <= 5): raise ValidationError(...)`. -/
def validate_rating (value : Int) : Except VError Int :=
  if ¬ (1 ≤ value ∧ value ≤ 5) then
    .error (.validationError "Rating must be between 1 and 5.")
  else .ok value

/-- The model-level validators on `Review.rating`
(`MinValueValidator(1)`, `MaxValueValidator(5)`): true iff the stored
value passes both. -/
def ratingModelValidatorsOk (value : Int) : Bool :=
  decide (1 ≤ value) && decide (value ≤ 5)

/-- `ListingSerializer.validate_price_per_night`:
`if value <= 0: raise ValidationError(...)`. -/
def validate_price_per_night (value : ℚ) : Except VError ℚ :=
  if value ≤ 0 then
    .error (.validationError "Price per night must be positive.")
  else .ok value

/-- The model-level validator on `Listing.price_per_night`
(`MinValueValidator(0)`): true iff the stored value passes it. -/
def priceModelValidatorOk (value : ℚ) : Bool :=
  decide (0 ≤ value)

/-- `BookingSerializer.validate_total_price`:
`if value <= 0: raise ValidationError(...)`. -/
def validate_total_price (value : ℚ) : Except VError ℚ :=
  if value ≤ 0 then
    .error (.validationError "Total price must be positive.")
  else .ok value

/-- Python `str.split(sep)` for a one-character separator, over the
character list of the string: `"".split(',') == ['']`, and each
occurrence of the separator opens a new token. -/
def pySplitChar (sep : Char) : List Char → List (List Char)
  | [] => [[]]
  | c :: rest =>
      if c = sep then [] :: pySplitChar sep rest
      else
        match pySplitChar sep rest with
        | t :: ts => (c :: t) :: ts
        | [] => [[c]]

/-- Python `str.strip()`: drop whitespace from both ends. -/
def pyStrip (s : List Char) : List Char :=
  ((s.dropWhile Char.isWhitespace).reverse.dropWhile
    Char.isWhitespace).reverse

/-- `get_amenities_list` (identical on `ListingSerializer` and
`ListingListSerializer`): split the stored comma-separated string on
commas and strip each token
(`[amenity.strip() for amenity in obj.amenities.split(',')]`); an
empty (falsy) string gives `[]`. -/
def get_amenities_list (amenities : String) : List String :=
  if amenities ≠ "" then
    (pySplitChar ',' amenities.toList).map (fun cs => String.mk (pyStrip cs))
  else []

/-! ## Cross-field booking validation (`BookingSerializer.validate`) -/

/-- The deserialized input of `BookingSerializer`: `data.get(...)`
yields `none` for an absent field. -/
structure BookingData where
  listing_id : Option Nat
  user_id : Option Nat
  check_in_date : Option Date
  check_out_date : Option Date
  number_of_guests : Option Nat
  total_price : Option ℚ
deriving DecidableEq

/-- The message of the serializer's and `Booking.clean`'s date check. -/
def checkoutMsg : String := "Check-out date must be after check-in date."

/-- The message of the serializer's and `Booking.clean`'s capacity
check (the source interpolates the two counts into it; the constant
part is kept). -/
def capacityMsg : String := "Number of guests exceeds maximum allowed."

/-- First half of `BookingSerializer.validate`: when both dates are
present (`if check_in and check_out`), reject unless
`check_out > check_in`. -/
def checkDates (data : BookingData) : Except VError Unit :=
  match data.check_in_date, data.check_out_date with
  | some check_in, some check_out =>
      if check_out.toDays ≤ check_in.toDays then
        .error (.validationError checkoutMsg)
      else .ok ()
  | _, _ => .ok ()

/-- Second half of `BookingSerializer.validate`: under the Python
truthiness guard `if listing_id and number_of_guests` (skipped when
either is absent or the guest count is 0), fetch the listing — a
missing listing is caught as `ValidationError "Invalid listing ID."` —
and reject when `number_of_guests > listing.max_guest_count`. -/
def checkGuests (store : List Listing) (data : BookingData) :
    Except VError Unit :=
  match data.listing_id, data.number_of_guests with
  | some lid, some g =>
      if g ≠ 0 then
        match findListing store lid with
        | some listing =>
            if g > listing.max_guest_count then
              .error (.validationError capacityMsg)
            else .ok ()
        | none => .error (.validationError "Invalid listing ID.")
      else .ok ()
  | _, _ => .ok ()

/-- `BookingSerializer.validate(self, data)`: the date check, then the
capacity/existence check, then `return data`. -/
def bookingValidate (store : List Listing) (data : BookingData) :
    Except VError BookingData := do
  checkDates data
  checkGuests store data
  return data

/-! ## Model-level validation and constraints -/

/-- `Booking.clean` (`src/listings/models.py`): reject when
`check_out_date <= check_in_date`, then when
`number_of_guests > self.listing.max_guest_count`; `listing` is the
booking's resolved foreign key. -/
def Booking.clean (b : Booking) (listing : Listing) : Except VError Unit :=
  if b.check_out_date.toDays ≤ b.check_in_date.toDays then
    .error (.validationError checkoutMsg)
  else if b.number_of_guests > listing.max_guest_count then
    .error (.validationError capacityMsg)
  else .ok ()

/-- `Booking.Meta.constraints`, enforced by the storage layer at write
time: `check_out_after_check_in` (`check_out_date > check_in_date`) and
`at_least_one_guest` (`number_of_guests >= 1`). -/
def bookingCheckConstraints (b : Booking) : Except VError Unit :=
  if ¬ (b.check_in_date.toDays < b.check_out_date.toDays) then
    .error (.integrityError "check_out_after_check_in")
  else if ¬ (1 ≤ b.number_of_guests) then
    .error (.integrityError "at_least_one_guest")
  else .ok ()

/-- Creating a booking through the API path: the serializer's required
fields must all be present, its field validator `validate_total_price`
and cross-field `validate` must pass, and the stored row must satisfy
`Booking.Meta.constraints`. -/
def createBooking (store : List Listing) (data : BookingData) :
    Except VError Booking :=
  match data.listing_id, data.user_id, data.check_in_date,
      data.check_out_date, data.number_of_guests, data.total_price with
  | some lid, some uid, some ci, some co, some g, some tp => do
      let _ ← validate_total_price tp
      let _ ← bookingValidate store data
      let b : Booking := ⟨lid, uid, ci, co, g, tp⟩
      let _ ← bookingCheckConstraints b
      pure b
  | _, _, _, _, _, _ => .error (.validationError "This field is required.")

/-! ## Derived read-only views -/

/-- `Booking.duration_days`:
`(self.check_out_date - self.check_in_date).days` — Python date
subtraction is the difference of day ordinals. -/
def Booking.duration_days (b : Booking) : Int :=
  b.check_out_date.toDays - b.check_in_date.toDays

/-- `self.reviews.all()` on a listing: the reverse foreign key, made
explicit over the review store. -/
def listingReviews (reviews : List Review) (lid : Nat) : List Review :=
  reviews.filter (fun r => r.listing_id == lid)

/-- `Listing.average_rating`: mean of the ratings of the listing's
reviews when some exist (`sum(...) / len(...)`, exact rational
division), else 0. -/
def average_rating (reviews : List Review) (lid : Nat) : ℚ :=
  let rs := listingReviews reviews lid
  if rs ≠ [] then
    (((rs.map Review.rating).sum : ℚ)) / ((rs.length : ℚ))
  else 0

/-! ## Review creation against the uniqueness constraint -/

/-- Modelled from the spec: the storage-layer enforcement of
`Review.Meta.unique_together = ['listing', 'user']` is framework/DB
code not present under `src/`; per the spec a creation attempt with a
duplicate (user, listing) pair fails with `ConflictError` and leaves
the store unchanged, otherwise the review is appended. -/
def createReview (store : List Review) (r : Review) :
    List Review × Option VError :=
  if store.any (fun r2 => r2.listing_id == r.listing_id &&
      r2.user_id == r.user_id) then
    (store, some .conflictError)
  else (store ++ [r], none)

end AlxTravel

/-! ## Claim theorems -/

namespace AlxTravel

/-- C3: for every price value `v`, the API write validation
(`ListingSerializer.validate_price_per_night`) fails with
`ValidationError` iff `v ≤ 0`, the storage-level constraint on
`Listing.price_per_night` (`MinValueValidator(0)`) accepts iff
`0 ≤ v`, and the two disagree exactly at `v = 0`. -/
theorem price_bounds_disagree_exactly_at_zero :
    ∀ v : ℚ,
      (¬ succeeds (validate_price_per_night v) ↔ v ≤ 0) ∧
      (priceModelValidatorOk v = true ↔ 0 ≤ v) ∧
      (¬ (succeeds (validate_price_per_night v) ↔
          priceModelValidatorOk v = true) ↔ v = 0) := by
  intro v
  by_cases h : v ≤ 0 <;>
    simp [validate_price_per_night, priceModelValidatorOk, succeeds, h]
  · constructor <;> intro h0 <;> linarith
  · constructor <;> intro h0 <;> linarith

/-- C5: rating validation (`ReviewSerializer.validate_rating`, and the
model-level validators on `Review.rating`) succeeds iff
`1 ≤ r ≤ 5` and otherwise fails with `ValidationError`; in particular
0 and 6 fail while 1 and 5 succeed. -/
theorem rating_range_iff :
    (∀ r : Int,
      (succeeds (validate_rating r) ↔ 1 ≤ r ∧ r ≤ 5) ∧
      (validate_rating r =
          .error (.validationError "Rating must be between 1 and 5.") ↔
        ¬ (1 ≤ r ∧ r ≤ 5)) ∧
      (ratingModelValidatorsOk r = true ↔ 1 ≤ r ∧ r ≤ 5)) ∧
    ¬ succeeds (validate_rating 0) ∧ succeeds (validate_rating 1) ∧
    succeeds (validate_rating 5) ∧ ¬ succeeds (validate_rating 6) := by
  refine ⟨fun r => ?_, ?_, ?_, ?_, ?_⟩
  · by_cases h : 1 ≤ r ∧ r ≤ 5 <;>
      simp [validate_rating, ratingModelValidatorsOk, succeeds, h]
  all_goals simp [validate_rating, succeeds]

/-- C8: `Booking.duration_days` is the integer day difference between
`check_out_date` and `check_in_date`: within one month it is the
difference of the day fields, the spec's test 2024-06-10 → 2024-06-12
gives 2, and across the leap-February of 2024 (2024-02-28 → 2024-03-01)
it gives 2 while the non-leap 2023 analogue gives 1. -/
theorem duration_days_day_difference :
    (∀ (lid uid g : Nat) (tp : ℚ) (y m d d1 : Int),
      Booking.duration_days ⟨lid, uid, ⟨y, m, d⟩, ⟨y, m, d1⟩, g, tp⟩ =
        d1 - d) ∧
    Booking.duration_days ⟨1, 2, ⟨2024, 6, 10⟩, ⟨2024, 6, 12⟩, 2, 100⟩ = 2 ∧
    Booking.duration_days ⟨1, 2, ⟨2024, 2, 28⟩, ⟨2024, 3, 1⟩, 2, 100⟩ = 2 ∧
    Booking.duration_days ⟨1, 2, ⟨2023, 2, 28⟩, ⟨2023, 3, 1⟩, 2, 100⟩ = 1 := by
  refine ⟨fun lid uid g tp y m d d1 => ?_, by decide, by decide, by decide⟩
  simp only [Booking.duration_days, Date.toDays]
  ring

/-- C7: `get_amenities_list` maps a non-empty stored string to the
comma-split, whitespace-stripped token sequence, the empty string to
`[]`, and in particular `"WiFi, Kitchen, Parking"` to
`["WiFi", "Kitchen", "Parking"]`. -/
theorem amenities_list_split_trim :
    (∀ s : String, s ≠ "" →
      get_amenities_list s =
        (pySplitChar ',' s.toList).map (fun cs => String.mk (pyStrip cs))) ∧
    get_amenities_list "" = [] ∧
    get_amenities_list "WiFi, Kitchen, Parking" =
      ["WiFi", "Kitchen", "Parking"] := by
  refine ⟨fun s hs => ?_, by decide, by decide⟩
  simp [get_amenities_list, hs]

/-- C7 witness: the split-and-trim equation evaluated on the spec's
concrete amenities string. -/
theorem amenities_list_split_trim_witness :
    get_amenities_list "WiFi, Kitchen, Parking" =
      (pySplitChar ',' "WiFi, Kitchen, Parking".toList).map
        (fun cs => String.mk (pyStrip cs)) :=
  amenities_list_split_trim.1 "WiFi, Kitchen, Parking" (by decide)

/-- Review fixture for C6: three reviews of listing 1 rated 3, 4, 5 by
distinct users. -/
def c6Reviews : List Review :=
  [⟨1, 10, 3, "Good"⟩, ⟨1, 11, 4, "Great"⟩, ⟨1, 12, 5, "Perfect"⟩]

/-- C6: `Listing.average_rating` is 0 when the listing has no reviews
and the arithmetic mean of the ratings otherwise; a listing whose
reviews are rated 3, 4, 5 has average 4. -/
theorem average_rating_mean_or_zero :
    (∀ (reviews : List Review) (lid : Nat),
      (listingReviews reviews lid = [] → average_rating reviews lid = 0) ∧
      (listingReviews reviews lid ≠ [] →
        average_rating reviews lid =
          (((listingReviews reviews lid).map Review.rating).sum : ℚ) /
            ((listingReviews reviews lid).length : ℚ))) ∧
    average_rating c6Reviews 1 = 4 ∧
    average_rating [] 1 = 0 := by
  refine ⟨fun reviews lid => ⟨fun he => ?_, fun hne => ?_⟩, ?_, ?_⟩
  · simp [average_rating, he]
  · simp [average_rating, hne]
  · norm_num [average_rating, listingReviews, c6Reviews, List.filter]
    simp
  · simp [average_rating, listingReviews]

/-- C6 witness: the mean equation evaluated on the three-review
fixture. -/
theorem average_rating_mean_or_zero_witness :
    listingReviews c6Reviews 1 ≠ [] ∧
    average_rating c6Reviews 1 =
      (((listingReviews c6Reviews 1).map Review.rating).sum : ℚ) /
        ((listingReviews c6Reviews 1).length : ℚ) :=
  ⟨by decide, (average_rating_mean_or_zero.1 c6Reviews 1).2 (by decide)⟩

/-- C4: the date-pair rule is enforced independently on both paths:
`BookingSerializer.validate` (when both dates are present) and
`Booking.clean` each reject with the `ValidationError`
"Check-out date must be after check-in date." exactly when
`check_out_date ≤ check_in_date`. -/
theorem checkout_after_checkin_both_paths :
    (∀ (data : BookingData) (ci co : Date),
      data.check_in_date = some ci → data.check_out_date = some co →
      (checkDates data = .error (.validationError checkoutMsg) ↔
        co.toDays ≤ ci.toDays)) ∧
    (∀ (b : Booking) (listing : Listing),
      Booking.clean b listing = .error (.validationError checkoutMsg) ↔
        b.check_out_date.toDays ≤ b.check_in_date.toDays) := by
  constructor
  · intro data ci co hci hco
    by_cases h : co.toDays ≤ ci.toDays <;>
      simp [checkDates, hci, hco, h]
  · intro b listing
    by_cases h : b.check_out_date.toDays ≤ b.check_in_date.toDays <;>
      simp [Booking.clean, h]
    by_cases h2 : b.number_of_guests > listing.max_guest_count <;>
      simp [h2, checkoutMsg, capacityMsg]

/-- C4 witness: both paths reject the spec's 2024-06-10 → 2024-06-09
date pair. -/
theorem checkout_after_checkin_both_paths_witness :
    checkDates ⟨some 1, some 2, some ⟨2024, 6, 10⟩, some ⟨2024, 6, 9⟩,
        some 2, some 100⟩ =
      .error (.validationError checkoutMsg) ∧
    Booking.clean ⟨1, 2, ⟨2024, 6, 10⟩, ⟨2024, 6, 9⟩, 2, 100⟩
        ⟨1, "t", 100, 1, 1, 4, 7, true, ""⟩ =
      .error (.validationError checkoutMsg) :=
  ⟨(checkout_after_checkin_both_paths.1 _ ⟨2024, 6, 10⟩ ⟨2024, 6, 9⟩
      rfl rfl).mpr (by decide),
   (checkout_after_checkin_both_paths.2 _ _).mpr (by decide)⟩

/-- C9: review creation against the (listing, user) uniqueness
constraint: a duplicate pair fails with `ConflictError` and leaves the
store unchanged, a non-duplicate is appended, and in particular a
review of the same listing by a different user succeeds. -/
theorem unique_review_conflict :
    ∀ (store : List Review) (r : Review),
      ((∃ r2 ∈ store, r2.listing_id = r.listing_id ∧
          r2.user_id = r.user_id) →
        createReview store r = (store, some VError.conflictError)) ∧
      ((¬ ∃ r2 ∈ store, r2.listing_id = r.listing_id ∧
          r2.user_id = r.user_id) →
        createReview store r = (store ++ [r], none)) ∧
      (∀ r2 : Review, r2.listing_id = r.listing_id →
        r2.user_id ≠ r.user_id →
        createReview [r2] r = ([r2, r], none)) := by
  intro store r
  refine ⟨fun hdup => ?_, fun hno => ?_, fun r2 hl hu => ?_⟩
  · have : store.any (fun r2 => r2.listing_id == r.listing_id &&
        r2.user_id == r.user_id) = true := by
      rcases hdup with ⟨r2, hmem, hl, hu⟩
      exact List.any_eq_true.mpr ⟨r2, hmem, by simp [hl, hu]⟩
    simp [createReview, this]
  · have : store.any (fun r2 => r2.listing_id == r.listing_id &&
        r2.user_id == r.user_id) = false := by
      rw [List.any_eq_false]
      intro r2 hmem
      simp only [Bool.and_eq_true, beq_iff_eq, not_and]
      intro hl hu
      exact hno ⟨r2, hmem, hl, hu⟩
    simp [createReview, this]
  · simp [createReview, hl, hu]

/-- C9 witness: after user 10 reviews listing 1, a second review by
user 10 conflicts and leaves the store unchanged, while one by user 11
succeeds. -/
theorem unique_review_conflict_witness :
    createReview [⟨1, 10, 5, "Great"⟩] ⟨1, 10, 2, "Bad"⟩ =
      ([⟨1, 10, 5, "Great"⟩], some VError.conflictError) ∧
    createReview [⟨1, 10, 5, "Great"⟩] ⟨1, 11, 4, "Nice"⟩ =
      ([⟨1, 10, 5, "Great"⟩, ⟨1, 11, 4, "Nice"⟩], none) :=
  ⟨(unique_review_conflict _ _).1 (by decide),
   (unique_review_conflict [] ⟨1, 11, 4, "Nice"⟩).2.2
     ⟨1, 10, 5, "Great"⟩ rfl (by decide)⟩

/-- C10: when the submitted `number_of_guests` is 0 (or the guest count
or listing reference is absent), `BookingSerializer.validate` skips the
capacity and listing-existence checks entirely and accepts the input
for any store — in particular for one in which the referenced listing
does not exist. -/
theorem zero_guests_skips_capacity_checks :
    ∀ (store : List Listing) (data : BookingData),
      (data.number_of_guests = some 0 ∨ data.number_of_guests = none ∨
        data.listing_id = none) →
      checkGuests store data = .ok () ∧
      (checkDates data = .ok () → bookingValidate store data = .ok data) := by
  intro store data hskip
  have hg : checkGuests store data = .ok () := by
    rcases hskip with h | h | h <;>
      rcases hdata : data.listing_id with _ | lid <;>
        rcases hdata2 : data.number_of_guests with _ | g <;>
          simp_all [checkGuests]
  refine ⟨hg, fun hd => ?_⟩
  simp only [bookingValidate, hd, hg]
  rfl

/-- C10 witness: a zero-guest input naming the nonexistent listing 99
passes serializer validation against the empty store. -/
theorem zero_guests_skips_capacity_checks_witness :
    checkGuests []
        ⟨some 99, some 2, some ⟨2024, 6, 10⟩, some ⟨2024, 6, 12⟩,
          some 0, some 100⟩ = .ok () ∧
    bookingValidate []
        ⟨some 99, some 2, some ⟨2024, 6, 10⟩, some ⟨2024, 6, 12⟩,
          some 0, some 100⟩ =
      .ok ⟨some 99, some 2, some ⟨2024, 6, 10⟩, some ⟨2024, 6, 12⟩,
          some 0, some 100⟩ ∧
    findListing [] 99 = none :=
  ⟨(zero_guests_skips_capacity_checks [] _ (Or.inl rfl)).1,
   (zero_guests_skips_capacity_checks [] _ (Or.inl rfl)).2 rfl, rfl⟩

/-- Listing fixture for C1: capacity 4, matching the spec's test. -/
def demoListing : Listing :=
  ⟨1, "Cozy Apartment", 100, 1, 1, 4, 7, true, "WiFi"⟩

/-- Booking input fixture for C1: zero guests against `demoListing`,
with valid dates and price. -/
def c1Data0 : BookingData :=
  ⟨some 1, some 2, some ⟨2024, 6, 10⟩, some ⟨2024, 6, 12⟩, some 0, some 100⟩

/-- C1 counterexample: with `g = 0 ≤ max_guest_count = 4`, the
serializer-level validation passes but booking creation fails on the
storage constraint `at_least_one_guest`, refuting "for any
g ≤ max_guest_count (including g = 0) the creation succeeds". -/
theorem createBooking_zero_guests_counterexample :
    (0 : Nat) ≤ demoListing.max_guest_count ∧
    bookingValidate [demoListing] c1Data0 = .ok c1Data0 ∧
    createBooking [demoListing] c1Data0 =
      .error (.integrityError "at_least_one_guest") :=
  ⟨by decide, rfl, rfl⟩

/-- `createBooking` on an input with every field present unfolds to the
serializer pipeline followed by the storage constraints. -/
theorem createBooking_eq (store : List Listing) (lid uid g : Nat)
    (ci co : Date) (tp : ℚ) :
    createBooking store ⟨some lid, some uid, some ci, some co, some g,
        some tp⟩ =
      (validate_total_price tp).bind (fun _ =>
        (bookingValidate store ⟨some lid, some uid, some ci, some co,
            some g, some tp⟩).bind (fun _ =>
          (bookingCheckConstraints ⟨lid, uid, ci, co, g, tp⟩).bind (fun _ =>
            .ok ⟨lid, uid, ci, co, g, tp⟩))) := rfl

/-- C1 (amended): against an existing listing, with valid dates and a
positive total price, booking creation succeeds iff
`1 ≤ g ∧ g ≤ max_guest_count`; `g > max_guest_count` fails with the
capacity `ValidationError`, while `g = 0` passes the serializer
validation yet fails on the storage constraint `at_least_one_guest`. -/
theorem createBooking_succeeds_iff_guests_in_bounds :
    ∀ (store : List Listing) (lid uid g : Nat) (ci co : Date) (tp : ℚ)
      (L : Listing),
      findListing store lid = some L →
      ci.toDays < co.toDays → 0 < tp →
      (succeeds (createBooking store
          ⟨some lid, some uid, some ci, some co, some g, some tp⟩) ↔
        1 ≤ g ∧ g ≤ L.max_guest_count) ∧
      (L.max_guest_count < g →
        createBooking store
            ⟨some lid, some uid, some ci, some co, some g, some tp⟩ =
          .error (.validationError capacityMsg)) ∧
      (g = 0 →
        bookingValidate store
            ⟨some lid, some uid, some ci, some co, some g, some tp⟩ =
          .ok ⟨some lid, some uid, some ci, some co, some g, some tp⟩ ∧
        createBooking store
            ⟨some lid, some uid, some ci, some co, some g, some tp⟩ =
          .error (.integrityError "at_least_one_guest")) := by
  intro store lid uid g ci co tp L hfind hdates htp
  have hvtp : validate_total_price tp = .ok tp := by
    simp [validate_total_price, not_le.mpr htp]
  have hcd : checkDates ⟨some lid, some uid, some ci, some co, some g,
      some tp⟩ = .ok () := by
    simp [checkDates, not_le.mpr hdates]
  by_cases hg0 : g = 0
  · subst hg0
    have hcg : checkGuests store ⟨some lid, some uid, some ci, some co,
        some 0, some tp⟩ = .ok () := by
      simp [checkGuests]
    have hbv : bookingValidate store ⟨some lid, some uid, some ci, some co,
        some 0, some tp⟩ = .ok ⟨some lid, some uid, some ci, some co,
        some 0, some tp⟩ := by
      simp only [bookingValidate, hcd, hcg]
      rfl
    have hcc : bookingCheckConstraints ⟨lid, uid, ci, co, 0, tp⟩ =
        .error (.integrityError "at_least_one_guest") := by
      simp [bookingCheckConstraints, hdates]
    have hcb : createBooking store ⟨some lid, some uid, some ci, some co,
        some 0, some tp⟩ = .error (.integrityError "at_least_one_guest") := by
      rw [createBooking_eq, hvtp, hbv, hcc]
      rfl
    refine ⟨?_, ?_, fun _ => ⟨hbv, hcb⟩⟩
    · simp [succeeds, hcb]
    · intro h
      exact absurd h (Nat.not_lt_zero _)
  · by_cases hcap : L.max_guest_count < g
    · have hcg : checkGuests store ⟨some lid, some uid, some ci, some co,
          some g, some tp⟩ = .error (.validationError capacityMsg) := by
        simp [checkGuests, hg0, hfind, hcap]
      have hbv : bookingValidate store ⟨some lid, some uid, some ci,
          some co, some g, some tp⟩ =
          .error (.validationError capacityMsg) := by
        simp only [bookingValidate, hcd, hcg]
        rfl
      have hcb : createBooking store ⟨some lid, some uid, some ci, some co,
          some g, some tp⟩ = .error (.validationError capacityMsg) := by
        rw [createBooking_eq, hvtp, hbv]
        rfl
      refine ⟨?_, fun _ => hcb, fun h => absurd h hg0⟩
      simp [succeeds, hcb]
      omega
    · have hcg : checkGuests store ⟨some lid, some uid, some ci, some co,
          some g, some tp⟩ = .ok () := by
        simp [checkGuests, hg0, hfind, hcap]
      have hbv : bookingValidate store ⟨some lid, some uid, some ci,
          some co, some g, some tp⟩ = .ok ⟨some lid, some uid, some ci,
          some co, some g, some tp⟩ := by
        simp only [bookingValidate, hcd, hcg]
        rfl
      have hcc : bookingCheckConstraints ⟨lid, uid, ci, co, g, tp⟩ =
          .ok () := by
        simp [bookingCheckConstraints, hdates]
        omega
      have hcb : createBooking store ⟨some lid, some uid, some ci, some co,
          some g, some tp⟩ = .ok ⟨lid, uid, ci, co, g, tp⟩ := by
        rw [createBooking_eq, hvtp, hbv, hcc]
        rfl
      refine ⟨?_, fun h => absurd h hcap, fun h => absurd h hg0⟩
      simp [succeeds, hcb]
      omega

/-- C1 witness: booking `demoListing` (capacity 4) with 4 guests and
valid dates succeeds. -/
theorem createBooking_guests_in_bounds_witness :
    findListing [demoListing] 1 = some demoListing ∧
    succeeds (createBooking [demoListing]
      ⟨some 1, some 2, some ⟨2024, 6, 10⟩, some ⟨2024, 6, 12⟩, some 4,
        some 100⟩) :=
  ⟨rfl, (createBooking_succeeds_iff_guests_in_bounds [demoListing] 1 2 4
      ⟨2024, 6, 10⟩ ⟨2024, 6, 12⟩ 100 demoListing rfl (by decide)
      (by norm_num)).1.mpr (by decide)⟩

/-- Booking input fixture for C2: one guest against the nonexistent
listing 7. -/
def c2Data : BookingData :=
  ⟨some 7, some 2, some ⟨2024, 6, 10⟩, some ⟨2024, 6, 12⟩, some 1, some 100⟩

/-- C2 counterexample: for a booking input naming a nonexistent
listing, `BookingSerializer.validate` fails with the `ValidationError`
"Invalid listing ID." — not with the distinct `NotFoundError` kind the
claim asserts (the source catches `Listing.DoesNotExist` and re-raises
`ValidationError`). -/
theorem missing_listing_validationError_counterexample :
    findListing [] 7 = none ∧
    bookingValidate [] c2Data =
      .error (.validationError "Invalid listing ID.") ∧
    VError.validationError "Invalid listing ID." ≠ VError.notFoundError :=
  ⟨rfl, rfl, by decide⟩

/-- C2 (amended): whenever the capacity check runs (listing reference
present, nonzero guest count) and the referenced listing does not
exist, validation fails with the `ValidationError`
"Invalid listing ID.", never with the `NotFoundError` kind. -/
theorem missing_listing_fails_with_validationError :
    ∀ (store : List Listing) (data : BookingData) (lid g : Nat),
      data.listing_id = some lid → data.number_of_guests = some g →
      g ≠ 0 → findListing store lid = none →
      checkGuests store data =
        .error (.validationError "Invalid listing ID.") ∧
      (checkDates data = .ok () →
        bookingValidate store data =
          .error (.validationError "Invalid listing ID.")) ∧
      checkGuests store data ≠ .error VError.notFoundError := by
  intro store data lid g hlid hg hg0 hfind
  have hcg : checkGuests store data =
      .error (.validationError "Invalid listing ID.") := by
    simp [checkGuests, hlid, hg, hg0, hfind]
  refine ⟨hcg, fun hd => ?_, by simp [hcg]⟩
  simp only [bookingValidate, hd, hcg]
  rfl

/-- C2 witness: the amended statement evaluated on the one-guest input
against the empty store. -/
theorem missing_listing_fails_with_validationError_witness :
    checkGuests [] c2Data =
      .error (.validationError "Invalid listing ID.") ∧
    bookingValidate [] c2Data =
      .error (.validationError "Invalid listing ID.") :=
  ⟨(missing_listing_fails_with_validationError [] c2Data 7 1 rfl rfl
      (by decide) rfl).1,
   (missing_listing_fails_with_validationError [] c2Data 7 1 rfl rfl
      (by decide) rfl).2.1 rfl⟩

end AlxTravel
